import Mathlib

/-!
Verification of the shipyard (Werft) view logic, the game-tick heartbeat
hook and the directory store of the repository. Pure functions of the
TypeScript source are embedded as Lean functions; JavaScript numbers that
hold integral quantities are embedded as `Int`, records as association
lists or as functions to `Option`, and the timer / clock effects as
explicit state passing. The shipyard store's `advance` operation is not
among the repository files, so it is modelled from the specification and
marked as such.
-/

/-- Status of a ship build order, `ShipBuildOrder['status']` in the source:
`queued`, `building`, `completed` or `cancelled`. -/
inductive OrderStatus where
  | queued
  | building
  | completed
  | cancelled
deriving DecidableEq

/-- A ship build order as `WerftView` consumes it: identifier, catalog
reference, unit count, lifecycle status and the start/end timestamps in
milliseconds. -/
structure ShipBuildOrder where
  id : String
  blueprintId : String
  quantity : Int
  status : OrderStatus
  startTime : Int
  endTime : Int
deriving DecidableEq

/-- A catalog entry of `SHIP_BLUEPRINTS`, restricted to the fields the
embedded logic reads (`id`, `name`, `hangarSlots`). -/
structure ShipBlueprint where
  id : String
  name : String
  hangarSlots : Int
deriving DecidableEq

/-- `SHIP_BLUEPRINTS.find((entry) => entry.id === blueprintId)`, over an
explicit catalog list. -/
def findBlueprint (catalog : List ShipBlueprint) (blueprintId : String) :
    Option ShipBlueprint :=
  catalog.find? (fun entry => entry.id == blueprintId)

/-- The derived capacity snapshot `hangarUsage` returns: used, reserved and
free hangar slots. -/
structure HangarUsage where
  used : Int
  reserved : Int
  free : Int
deriving DecidableEq

/-- The `used` reduction of `hangarUsage`: for each inventory entry, the
blueprint's `hangarSlots * amount`, with a missing blueprint contributing
the accumulator unchanged. -/
def usedSlots (catalog : List ShipBlueprint) (inventory : List (String × Int)) : Int :=
  inventory.foldl
    (fun acc entry =>
      match findBlueprint catalog entry.1 with
      | none => acc
      | some blueprint => acc + blueprint.hangarSlots * entry.2)
    0

/-- The `reserved` reduction of `hangarUsage`: orders with status
`completed` are skipped, every other order contributes
`hangarSlots * quantity`, with a missing blueprint contributing the
accumulator unchanged. -/
def reservedSlots (catalog : List ShipBlueprint) (queue : List ShipBuildOrder) : Int :=
  queue.foldl
    (fun acc order =>
      if order.status = OrderStatus.completed then acc
      else
        match findBlueprint catalog order.blueprintId with
        | none => acc
        | some blueprint => acc + blueprint.hangarSlots * order.quantity)
    0

/-- The `hangarUsage` memo of `WerftView`: used and reserved slots plus
`free = Math.max(hangarCapacity - used - reserved, 0)`. -/
def hangarUsage (catalog : List ShipBlueprint) (hangarCapacity : Int)
    (inventory : List (String × Int)) (queue : List ShipBuildOrder) : HangarUsage :=
  let used := usedSlots catalog inventory
  let reserved := reservedSlots catalog queue
  { used := used
    reserved := reserved
    free := max (hangarCapacity - used - reserved) 0 }

/-- One element of the `queueEntries` list: the spread order fields together
with the derived `blueprintName`, `remaining` and `hangarSlots`. -/
structure QueueEntry where
  order : ShipBuildOrder
  blueprintName : String
  remaining : Int
  hangarSlots : Int
deriving DecidableEq

/-- The mapping step of `queueEntries`: looks the order's blueprint up and
falls back to the raw id and to `0` slots when it is absent;
`remaining = 0` for a completed order, `Math.max(endTime - now, 0)`
otherwise. -/
def queueEntry (now : Int) (catalog : List ShipBlueprint) (order : ShipBuildOrder) :
    QueueEntry :=
  let blueprint := findBlueprint catalog order.blueprintId
  { order := order
    blueprintName := (blueprint.map ShipBlueprint.name).getD order.blueprintId
    remaining :=
      if order.status = OrderStatus.completed then 0 else max (order.endTime - now) 0
    hangarSlots := (blueprint.map ShipBlueprint.hangarSlots).getD 0 }

/-- `[...queue].sort((a, b) => a.startTime - b.startTime)`: a copy of the
queue sorted ascending by start time (the source sorts a spread copy, so the
underlying queue is untouched; here purity is intrinsic). -/
def sortQueue (queue : List ShipBuildOrder) : List ShipBuildOrder :=
  queue.mergeSort (fun a b => a.startTime ≤ b.startTime)

/-- The `queueEntries` memo of `WerftView`: the sorted copy of the queue
mapped through `queueEntry`. -/
def queueEntries (now : Int) (catalog : List ShipBlueprint)
    (queue : List ShipBuildOrder) : List QueueEntry :=
  (sortQueue queue).map (queueEntry now catalog)

/-- `handleQuantityChange`: stores `Math.max(1, Math.min(10, value))` under
the blueprint's key; the record is embedded as a function to `Option`. -/
def handleQuantityChange (prev : String → Option Int) (blueprintId : String)
    (value : Int) : String → Option Int :=
  fun key => if key = blueprintId then some (max 1 (min 10 value)) else prev key

/-- `quantities[ship.id] ?? 1`: the stored quantity with default `1`. -/
def quantityFor (quantities : String → Option Int) (blueprintId : String) : Int :=
  (quantities blueprintId).getD 1

/-- A sequence of quantity edits applied to the view's initial empty
`quantities` record. -/
def applyQuantityEdits (edits : List (String × Int)) : String → Option Int :=
  edits.foldl (fun prev e => handleQuantityChange prev e.1 e.2) (fun _ => none)

/-- `renderOrderActions`: `some order.id` stands for the rendered cancel
button wired to `cancelOrder(order.id)`, `none` for the absent control. -/
def renderOrderActions (order : ShipBuildOrder) : Option String :=
  if order.status ≠ OrderStatus.queued then none else some order.id

/-- The three subsystem states the tick callback touches: the game store,
the mission store and the shipyard store. -/
structure TickState (G M S : Type) where
  game : G
  missions : M
  shipyard : S

/-- What one firing of the interval callback produces: the advanced
subsystem states and how many times `Date.now()` was read. -/
structure TickOutcome (G M S : Type) where
  state : TickState G M S
  clockReads : Nat

/-- The interval callback of `useGameTick`. `clock n` is the value the
`(n+1)`-th `Date.now()` read would return; the callback performs exactly the
reads the source performs (`const now = Date.now()`), then runs `gameTick`,
`advanceMissions(now)` and `advanceShipyard(now)`. -/
def tickCallback {G M S : Type} (clock : Nat → Int) (gameTick : G → G)
    (advanceMissions : Int → M → M) (advanceShipyard : Int → S → S)
    (st : TickState G M S) : TickOutcome G M S :=
  let reads := 0
  let now := clock reads
  let reads := reads + 1
  { state :=
      { game := gameTick st.game
        missions := advanceMissions now st.missions
        shipyard := advanceShipyard now st.shipyard }
    clockReads := reads }

/-- The browser timer registry: the ids of the running intervals and the id
the next `setInterval` call returns. -/
structure TimerSystem where
  active : List Nat
  nextId : Nat
deriving DecidableEq

/-- `setInterval(...)`: registers a fresh interval and returns its id. -/
def setInterval (timers : TimerSystem) : Nat × TimerSystem :=
  (timers.nextId, { active := timers.nextId :: timers.active, nextId := timers.nextId + 1 })

/-- `clearInterval(intervalId)`: removes the interval from the registry. -/
def clearInterval (intervalId : Nat) (timers : TimerSystem) : TimerSystem :=
  { timers with active := timers.active.filter (fun i => i != intervalId) }

/-- The effect body of `useGameTick`: registers the interval and returns,
next to the mounted state, the cleanup closure `() => clearInterval(intervalId)`
over the id it registered. -/
def useGameTickEffect (timers : TimerSystem) :
    (Nat × TimerSystem) × (TimerSystem → TimerSystem) :=
  let r := setInterval timers
  (r, clearInterval r.1)

/-- Modelled from the spec: the shipyard store state. The store module
itself (`useShipyardStore`) is not among the repository files; §6 of the
specification fixes its observable shape as the order list, the inventory
map and the capacity constant. -/
structure ShipyardState where
  queue : List ShipBuildOrder
  inventory : List (String × Int)
  hangarCapacity : Int
deriving DecidableEq

/-- Modelled from the spec: crediting `amount` completed units of a
blueprint to the inventory map (embedded as an association list). -/
def credit (inventory : List (String × Int)) (blueprintId : String) (amount : Int) :
    List (String × Int) :=
  match inventory with
  | [] => [(blueprintId, amount)]
  | entry :: rest =>
    if entry.1 = blueprintId then (entry.1, entry.2 + amount) :: rest
    else entry :: credit rest blueprintId amount

/-- Modelled from the spec: an order completes during `advance(now)` when it
is non-terminal (`queued` orders are promoted to `building` within the same
call, per §4.2) and its `endTime` has been reached. -/
def completesAt (now : Int) (order : ShipBuildOrder) : Bool :=
  (order.status == OrderStatus.queued || order.status == OrderStatus.building)
    && decide (order.endTime ≤ now)

/-- Modelled from the spec: the status transition one `advance(now)` call
applies to a single order — completion for a due non-terminal order,
promotion `queued → building` otherwise, and no effect on `completed` or
`cancelled` orders. -/
def stepOrder (now : Int) (order : ShipBuildOrder) : ShipBuildOrder :=
  if completesAt now order then { order with status := OrderStatus.completed }
  else if order.status = OrderStatus.queued then { order with status := OrderStatus.building }
  else order

/-- Modelled from the spec: the inventory credits of one `advance(now)`
call — each completing order credits `quantity` units of its blueprint. -/
def creditCompletions (now : Int) (inventory : List (String × Int))
    (queue : List ShipBuildOrder) : List (String × Int) :=
  queue.foldl
    (fun inv order =>
      if completesAt now order then credit inv order.blueprintId order.quantity else inv)
    inventory

/-- Modelled from the spec: `advance(now)` of the shipyard store — every
order steps through `stepOrder`, completing orders credit the inventory,
the capacity constant is untouched. -/
def advance (now : Int) (s : ShipyardState) : ShipyardState :=
  { queue := s.queue.map (stepOrder now)
    inventory := creditCompletions now s.inventory s.queue
    hangarCapacity := s.hangarCapacity }

/-- An alliance directory entry restricted to the fields
`buildAllianceColorMap` consumes. -/
structure AllianceEntry where
  id : String
  color : String
deriving DecidableEq

/-- `acc[alliance.id] = alliance.color` on a JavaScript record embedded as
an insertion-ordered association list: overwrite in place when the key
exists, append otherwise. -/
def recordSet (record : List (String × String)) (key value : String) :
    List (String × String) :=
  if record.any (fun p => p.1 == key) then
    record.map (fun p => if p.1 == key then (p.1, value) else p)
  else record ++ [(key, value)]

/-- `buildAllianceColorMap`: the reduce building the id → color record. -/
def buildAllianceColorMap (alliances : List AllianceEntry) : List (String × String) :=
  alliances.foldl (fun acc alliance => recordSet acc alliance.id alliance.color) []

/-- A directory snapshot: systems, players, current player and alliance
colors. The system and player element types are opaque to the store logic
and stay type parameters. -/
structure DirectorySnapshot (σ π : Type) where
  systems : List σ
  players : List π
  currentPlayerId : String
  allianceColors : List (String × String)

/-- The response `fetchDirectorySnapshot` resolves with. -/
structure DirectoryResponse (σ π : Type) where
  systems : List σ
  players : List π
  currentPlayerId : String
  alliances : List AllianceEntry

/-- The directory store state (`DirectoryState` of the source); profile
values stay a type parameter. -/
structure DirectoryState (σ π ρ : Type) where
  systems : List σ
  players : List π
  favorites : List String
  openProfileId : Option String
  profiles : List (String × ρ)
  currentPlayerId : String
  allianceColors : List (String × String)
  isLoading : Bool
  isReady : Bool
  error : Option String

/-- `applySnapshot`: installs a snapshot and sets `isLoading := false`,
`isReady := true`. -/
def applySnapshot {σ π ρ : Type} (st : DirectoryState σ π ρ)
    (snapshot : DirectorySnapshot σ π) : DirectoryState σ π ρ :=
  { st with
    systems := snapshot.systems
    players := snapshot.players
    currentPlayerId := snapshot.currentPlayerId
    allianceColors := snapshot.allianceColors
    isLoading := false
    isReady := true }

/-- `mapResponseToSnapshot`: the field-for-field snapshot copy. -/
def mapResponseToSnapshot {σ π : Type} (snapshot : DirectorySnapshot σ π) :
    DirectorySnapshot σ π :=
  { systems := snapshot.systems
    players := snapshot.players
    currentPlayerId := snapshot.currentPlayerId
    allianceColors := snapshot.allianceColors }

/-- `createFallbackSnapshot`: the local snapshot built from the mock data
(`SYSTEM_SNAPSHOT`, `PLAYER_DIRECTORY`, `CURRENT_PLAYER_ID`,
`ALLIANCE_DIRECTORY`), which is external configuration and therefore passed
in as arguments. -/
def createFallbackSnapshot {σ π : Type} (systemSnapshot : List σ)
    (playerDirectory : List π) (currentPlayerId : String)
    (allianceDirectory : List AllianceEntry) : DirectorySnapshot σ π :=
  { systems := systemSnapshot
    players := playerDirectory
    currentPlayerId := currentPlayerId
    allianceColors :=
      buildAllianceColorMap
        (allianceDirectory.map (fun e => { id := e.id, color := e.color })) }

/-- The text recorded when the caught value is no `Error` instance. -/
def fallbackErrorText : String := "Unbekannter Fehler beim Laden des Verzeichnisses."

/-- `error instanceof Error ? error.message : '...'`: a thrown value is
embedded as `Option String`, `some message` for an `Error` instance. -/
def caughtErrorMessage (thrown : Option String) : String :=
  thrown.getD fallbackErrorText

/-- `refresh` of the directory store. The awaited network call's outcome is
the `fetchResult` argument: `Except.ok` the resolved response,
`Except.error` the caught thrown value. On success the mapped response is
applied; on failure the local fallback snapshot is applied and the error
message recorded. Both branches return normally. -/
def refresh {σ π ρ : Type} (systemSnapshot : List σ) (playerDirectory : List π)
    (currentPlayerId : String) (allianceDirectory : List AllianceEntry)
    (fetchResult : Except (Option String) (DirectoryResponse σ π))
    (st : DirectoryState σ π ρ) : DirectoryState σ π ρ :=
  let st := { st with isLoading := true, error := none }
  match fetchResult with
  | Except.ok response =>
      applySnapshot st
        (mapResponseToSnapshot
          { systems := response.systems
            players := response.players
            currentPlayerId := response.currentPlayerId
            allianceColors := buildAllianceColorMap response.alliances })
  | Except.error thrown =>
      let st := applySnapshot st
        (createFallbackSnapshot systemSnapshot playerDirectory currentPlayerId
          allianceDirectory)
      { st with error := some (caughtErrorMessage thrown) }

/-- A demo catalog with one blueprint occupying two hangar slots. -/
def demoCatalog : List ShipBlueprint :=
  [{ id := "kor", name := "Korvette", hangarSlots := 2 }]

/-- A cancelled order over the demo blueprint, quantity 3. -/
def demoCancelledOrder : ShipBuildOrder :=
  { id := "o1", blueprintId := "kor", quantity := 3,
    status := OrderStatus.cancelled, startTime := 0, endTime := 60000 }

/-- An order whose blueprint id matches nothing in the demo catalog. -/
def demoGhostOrder : ShipBuildOrder :=
  { id := "o2", blueprintId := "ghost", quantity := 2,
    status := OrderStatus.queued, startTime := 0, endTime := 10 }

/-- An order currently building over the demo blueprint. -/
def demoBuildingOrder : ShipBuildOrder :=
  { id := "o3", blueprintId := "kor", quantity := 1,
    status := OrderStatus.building, startTime := 0, endTime := 60000 }

/-- Helper: an order that `stepOrder` has already processed at `now` cannot
complete again at the same `now`. -/
theorem completesAt_stepOrder (now : Int) (order : ShipBuildOrder) :
    completesAt now (stepOrder now order) = false := by
  rcases hs : order.status <;> by_cases hle : order.endTime ≤ now <;>
    simp [stepOrder, completesAt, hs, hle]

/-- Helper: one order's `advance` transition is idempotent at a fixed `now`. -/
theorem stepOrder_idem (now : Int) (order : ShipBuildOrder) :
    stepOrder now (stepOrder now order) = stepOrder now order := by
  rcases hs : order.status <;> by_cases hle : order.endTime ≤ now <;>
    simp [stepOrder, completesAt, hs, hle]

/-- Helper: a queue that `advance` has already stepped at `now` credits
nothing more at the same `now`. -/
theorem creditCompletions_map_stepOrder (now : Int) (inventory : List (String × Int))
    (queue : List ShipBuildOrder) :
    creditCompletions now inventory (queue.map (stepOrder now)) = inventory := by
  induction queue generalizing inventory with
  | nil => rfl
  | cons o rest ih =>
      have h : creditCompletions now inventory ((o :: rest).map (stepOrder now))
          = creditCompletions now inventory (rest.map (stepOrder now)) := by
        simp [creditCompletions, completesAt_stepOrder]
      rw [h, ih]

/-- C1: evaluation of the capacity code at the failing input — a cancelled
order (quantity 3 of a blueprint with 2 hangar slots) still contributes 6
slots to `reserved`, where the claim says a cancelled order contributes
nothing: the source's reduction skips only status `completed`. -/
theorem C1_cancelled_order_still_reserved :
    demoCancelledOrder.status = OrderStatus.cancelled ∧
    (hangarUsage demoCatalog 10 [] [demoCancelledOrder]).reserved = 6 := by
  constructor <;> rfl

/-- C2 counterexample: with `hangarCapacity = 0` and one completed ship of 2
slots in the inventory, `used + reserved + free = 2 + 0 + 0 ≠ 0`, so the
sum does not equal `hangarCapacity` at this over-committed input. -/
theorem C2_counterexample :
    ¬ ((hangarUsage demoCatalog 0 [("kor", 1)] []).used
        + (hangarUsage demoCatalog 0 [("kor", 1)] []).reserved
        + (hangarUsage demoCatalog 0 [("kor", 1)] []).free = 0) := by
  decide

/-- C2 (amended): for every inventory, queue and capacity, `free` is never
negative, and `used + reserved + free = max hangarCapacity (used + reserved)`
— so the snapshot satisfies `used + reserved + free = hangarCapacity`
exactly when `used + reserved ≤ hangarCapacity`, while an over-committed
snapshot clamps `free` at 0. -/
theorem C2_capacity_snapshot_invariant (catalog : List ShipBlueprint)
    (hangarCapacity : Int) (inventory : List (String × Int))
    (queue : List ShipBuildOrder) :
    0 ≤ (hangarUsage catalog hangarCapacity inventory queue).free ∧
    (hangarUsage catalog hangarCapacity inventory queue).used
      + (hangarUsage catalog hangarCapacity inventory queue).reserved
      + (hangarUsage catalog hangarCapacity inventory queue).free
      = max hangarCapacity
          ((hangarUsage catalog hangarCapacity inventory queue).used
            + (hangarUsage catalog hangarCapacity inventory queue).reserved) := by
  dsimp [hangarUsage]
  simp only [max_def]
  constructor
  · split <;> omega
  · split <;> split <;> omega

/-- C3: one firing of the `useGameTick` interval callback reads the clock
exactly once and hands that same value (`clock 0`) to both the mission
advance and the shipyard advance. -/
theorem C3_tick_reads_clock_once {G M S : Type} (clock : Nat → Int)
    (gameTick : G → G) (advanceMissions : Int → M → M)
    (advanceShipyard : Int → S → S) (st : TickState G M S) :
    tickCallback clock gameTick advanceMissions advanceShipyard st =
      { state :=
          { game := gameTick st.game
            missions := advanceMissions (clock 0) st.missions
            shipyard := advanceShipyard (clock 0) st.shipyard }
        clockReads := 1 } := rfl

/-- C4: `advance` is idempotent — calling it twice with the same `now`
yields the state one call yields; in particular orders already `completed`
or `cancelled` are left untouched by the re-invocation. -/
theorem C4_advance_idempotent (now : Int) (s : ShipyardState) :
    advance now (advance now s) = advance now s := by
  have hq : (s.queue.map (stepOrder now)).map (stepOrder now)
      = s.queue.map (stepOrder now) := by
    rw [List.map_map]
    exact List.map_congr_left (fun a _ => stepOrder_idem now a)
  have hi : creditCompletions now (creditCompletions now s.inventory s.queue)
      (s.queue.map (stepOrder now)) = creditCompletions now s.inventory s.queue :=
    creditCompletions_map_stepOrder now _ _
  simp [advance, hq, hi]

/-- C5: a blueprint id with no catalog entry contributes exactly zero
capacity — the inventory entry adds nothing to `used`, the order adds
nothing to `reserved`, and the derived queue entry's `hangarSlots` falls
back to 0; the computation is total, it never fails. -/
theorem C5_missing_blueprint_zero_contribution (catalog : List ShipBlueprint)
    (order : ShipBuildOrder) (inventory : List (String × Int))
    (queue : List ShipBuildOrder) (amount now : Int)
    (h : findBlueprint catalog order.blueprintId = none) :
    usedSlots catalog ((order.blueprintId, amount) :: inventory)
        = usedSlots catalog inventory ∧
    reservedSlots catalog (order :: queue) = reservedSlots catalog queue ∧
    (queueEntry now catalog order).hangarSlots = 0 := by
  refine ⟨?_, ?_, ?_⟩
  · simp [usedSlots, h]
  · by_cases hs : order.status = OrderStatus.completed <;> simp [reservedSlots, hs, h]
  · simp [queueEntry, h]

/-- C5 witness: the demo catalog has no entry for `"ghost"`, and the three
zero-contribution facts hold at that concrete input. -/
theorem C5_missing_blueprint_witness :
    findBlueprint demoCatalog demoGhostOrder.blueprintId = none ∧
    (usedSlots demoCatalog ((demoGhostOrder.blueprintId, 4) :: [("kor", 1)])
        = usedSlots demoCatalog [("kor", 1)] ∧
      reservedSlots demoCatalog (demoGhostOrder :: []) = reservedSlots demoCatalog [] ∧
      (queueEntry 0 demoCatalog demoGhostOrder).hangarSlots = 0) :=
  ⟨by decide, C5_missing_blueprint_zero_contribution demoCatalog demoGhostOrder
    [("kor", 1)] [] 4 0 (by decide)⟩

/-- C6: the effect of `useGameTick` registers an interval that is running
while mounted, and its cleanup clears exactly the interval it registered,
so that timer is no longer active after the cleanup runs. -/
theorem C6_cleanup_clears_registered_interval (timers : TimerSystem) :
    (useGameTickEffect timers).1.1 ∈ (useGameTickEffect timers).1.2.active ∧
    (useGameTickEffect timers).1.1 ∉
      ((useGameTickEffect timers).2 (useGameTickEffect timers).1.2).active := by
  constructor
  · simp [useGameTickEffect, setInterval]
  · simp [useGameTickEffect, setInterval, clearInterval]

/-- C7: `queueEntries` presents the same orders as the underlying queue
(the entry list mapped back to orders is a permutation of the queue) sorted
ascending by `startTime`; it is a pure function of the queue, computed on a
spread copy, so the queue itself is untouched. -/
theorem C7_queue_entries_sorted_same_orders (now : Int)
    (catalog : List ShipBlueprint) (queue : List ShipBuildOrder) :
    List.Perm ((queueEntries now catalog queue).map QueueEntry.order) queue ∧
    List.Pairwise (fun a b : QueueEntry => a.order.startTime ≤ b.order.startTime)
      (queueEntries now catalog queue) := by
  have hsorted : List.Pairwise
      (fun a b : ShipBuildOrder => a.startTime ≤ b.startTime) (sortQueue queue) := by
    have h := @List.sorted_mergeSort ShipBuildOrder
      (fun a b => decide (a.startTime ≤ b.startTime))
      (by intro a b c hab hbc; simp at *; omega)
      (by intro a b; simp; omega) queue
    exact h.imp (fun hab => by simpa using hab)
  constructor
  · have hmap : (queueEntries now catalog queue).map QueueEntry.order
        = sortQueue queue := by
      unfold queueEntries
      rw [List.map_map]
      show (sortQueue queue).map id = sortQueue queue
      exact List.map_id _
    rw [hmap]
    exact List.mergeSort_perm queue _
  · unfold queueEntries
    rw [List.pairwise_map]
    exact hsorted

/-- C8: whenever the directory snapshot fetch fails, `refresh` returns
normally and deterministically installs the local fallback snapshot — the
state ends with the fallback systems, players, current player id and
alliance colors, `isLoading = false`, `isReady = true`, and the caught
error's message recorded. -/
theorem C8_refresh_fetch_failure_applies_fallback {σ π ρ : Type}
    (systemSnapshot : List σ) (playerDirectory : List π)
    (currentPlayerId : String) (allianceDirectory : List AllianceEntry)
    (thrown : Option String) (st : DirectoryState σ π ρ) :
    refresh systemSnapshot playerDirectory currentPlayerId allianceDirectory
        (Except.error thrown) st =
      { st with
        systems := systemSnapshot
        players := playerDirectory
        currentPlayerId := currentPlayerId
        allianceColors :=
          buildAllianceColorMap
            (allianceDirectory.map (fun e => { id := e.id, color := e.color }))
        isLoading := false
        isReady := true
        error := some (caughtErrorMessage thrown) } := rfl

/-- Helper: folding quantity edits over a record whose read-back values all
lie in `[1, 10]` keeps every read-back value in `[1, 10]`. -/
theorem quantityFor_foldl_bounds (edits : List (String × Int))
    (prev : String → Option Int)
    (hprev : ∀ b, 1 ≤ quantityFor prev b ∧ quantityFor prev b ≤ 10) :
    ∀ b, 1 ≤ quantityFor (edits.foldl (fun p e => handleQuantityChange p e.1 e.2) prev) b ∧
      quantityFor (edits.foldl (fun p e => handleQuantityChange p e.1 e.2) prev) b ≤ 10 := by
  induction edits generalizing prev with
  | nil => exact hprev
  | cons e rest ih =>
      intro b
      refine ih _ ?_ b
      intro c
      unfold quantityFor handleQuantityChange
      by_cases hc : c = e.1
      · refine ⟨?_, ?_⟩ <;> simp only [hc, if_pos rfl, Option.getD_some]
        · exact le_max_left _ _
        · exact max_le (by norm_num) (le_trans (min_le_left _ _) (by norm_num))
      · simp only [if_neg hc]
        exact hprev c

/-- C9: for every sequence of quantity edits applied through
`handleQuantityChange` starting from the view's empty record, the quantity
read back for any blueprint (default 1 when unset) stays in `[1, 10]`:
every stored value is `max 1 (min 10 value)`. -/
theorem C9_quantity_stays_clamped (edits : List (String × Int)) (blueprintId : String) :
    1 ≤ quantityFor (applyQuantityEdits edits) blueprintId ∧
    quantityFor (applyQuantityEdits edits) blueprintId ≤ 10 :=
  quantityFor_foldl_bounds edits (fun _ => none)
    (fun b => by constructor <;> norm_num [quantityFor]) blueprintId

/-- C10: the view renders the cancel control only for a `queued` order —
for every order whose status is not `queued` (building, completed or
cancelled), `renderOrderActions` yields no control, so `cancelOrder` cannot
be triggered from this interface for such an order. -/
theorem C10_cancel_rendered_only_for_queued (order : ShipBuildOrder)
    (h : order.status ≠ OrderStatus.queued) :
    renderOrderActions order = none := by
  simp [renderOrderActions, h]

/-- C10 witness: the demo building order gets no cancel control. -/
theorem C10_cancel_rendered_only_for_queued_witness :
    demoBuildingOrder.status ≠ OrderStatus.queued ∧
    renderOrderActions demoBuildingOrder = none :=
  ⟨by decide, C10_cancel_rendered_only_for_queued demoBuildingOrder (by decide)⟩
